import Mathlib

/-!
# Verification of the `ronbun` README generator (`src/ronbun/readme.py`)

This file gives a shallow embedding, in Lean 4, of the README-generation
logic of the Sample Programs READMEs tool and proves/refutes the frozen
claims about it.

Modelling conventions:

* Python strings are Lean `String`s; string operations (`str.split()`,
  `"+".join`, `str.lower()`, `str.title()`, `urllib.parse.quote`) are
  embedded as executable Lean functions over `String.data` (lists of
  characters).
* Machine-level `float` arithmetic in
  `_generate_program_list_header` is embedded with exact arithmetic:
  for natural `c ≤ t` with the magnitudes that arise here,
  `int((c / t) * 4)` equals the exact `⌊4·c/t⌋`, i.e. `c * 4 / t` in `Nat`.
* Fallible Python code (a `ZeroDivisionError` or `IndexError`) is embedded
  with `Option`: `none` models the raised exception.
* The external collaborators (the `subete` repository model and the
  `snakemd` document builder) are not part of the sources of this repository;
  the accessors the generator calls on them are modelled from the spec,
  and each such definition is marked `Modelled from the spec:` in its
  doc comment.
* The in-place `list.sort` mutation of `_generate_missing_program_list`
  is embedded by explicit state passing: the function returns both its
  result and the post-call value of its `missing_programs` argument.
-/

namespace Ronbun

/-! ## Python string primitives -/

/-- Helper for Python `str.split()`: the accumulator holds the current
word, reversed. -/
def pySplitAux : List Char → List Char → List String
  | [], acc => if acc.isEmpty then [] else [⟨acc.reverse⟩]
  | c :: cs, acc =>
    if c.isWhitespace then
      (if acc.isEmpty then pySplitAux cs []
       else (⟨acc.reverse⟩ : String) :: pySplitAux cs [])
    else pySplitAux cs (c :: acc)

/-- Python `str.split()` with no arguments: split on runs of whitespace,
discarding empty fields. -/
def pySplit (s : String) : List String :=
  pySplitAux s.data []

/-- Python `"+".join(words)`. -/
def plusJoin : List String → String
  | [] => ""
  | [w] => w
  | w :: ws => w ++ "+" ++ plusJoin ws

/-- Python `str.lower()` (character-wise lowering, as applies to the
ASCII program/label names handled here). -/
def pyLower (s : String) : String :=
  ⟨s.data.map Char.toLower⟩

/-- One step of Python `str.title()`: the boolean records whether the
previous character was a cased letter. -/
def pyTitleAux : Bool → List Char → List Char
  | _, [] => []
  | prevAlpha, c :: cs =>
    (if c.isAlpha then (if prevAlpha then c.toLower else c.toUpper) else c)
      :: pyTitleAux c.isAlpha cs

/-- Python `str.title()`: the first letter of every maximal run of letters
is upper-cased, the rest lower-cased. -/
def pyTitle (s : String) : String :=
  ⟨pyTitleAux false s.data⟩

/-- Characters `urllib.parse.quote` leaves untouched with the default
safe set (slash kept): ASCII letters and digits, `_.-~` and `/`. -/
def quoteSafe (c : Char) : Bool :=
  c.isAlpha || c.isDigit || c = '_' || c = '.' || c = '-' || c = '~' || c = '/'

/-- Upper-case hexadecimal digit for `n < 16`. -/
def hexDigit (n : Nat) : Char :=
  if n < 10 then Char.ofNat (48 + n) else Char.ofNat (55 + n)

/-- UTF-8 encoding of a single character, as a list of byte values
(continuation bytes written with division and remainder by 64). -/
def utf8Bytes (c : Char) : List Nat :=
  if c.toNat < 0x80 then [c.toNat]
  else if c.toNat < 0x800 then
    [0xC0 + c.toNat / 0x40, 0x80 + c.toNat % 0x40]
  else if c.toNat < 0x10000 then
    [0xE0 + c.toNat / 0x1000, 0x80 + c.toNat / 0x40 % 0x40,
     0x80 + c.toNat % 0x40]
  else
    [0xF0 + c.toNat / 0x40000, 0x80 + c.toNat / 0x1000 % 0x40,
     0x80 + c.toNat / 0x40 % 0x40, 0x80 + c.toNat % 0x40]

/-- The `%XX` escape of one byte. -/
def percentByte (b : Nat) : List Char :=
  ['%', hexDigit (b / 16), hexDigit (b % 16)]

/-- The effect of `urllib.parse.quote` on one character. -/
def quoteChar (c : Char) : List Char :=
  if quoteSafe c then [c] else (utf8Bytes c).flatMap percentByte

/-- The function `urllib.parse.quote(s)` with the default safe set (slash kept). -/
def pyQuote (s : String) : String :=
  ⟨s.data.flatMap quoteChar⟩

/-! ## External collaborator interface (modelled from the spec)

`subete` identifies a project by a case-normalized slug string such as
`"hello-world"`; a `Project`/missing program is embedded as that slug. -/

/-- A separator character of a slug: underscore or hyphen. -/
def isSeparator (c : Char) : Bool :=
  c = '-' || c = '_'

/-- Modelled from the spec: the `subete` method `Project.name()` (the display
title), which is not under `src/` — "display title = identifier with
separators replaced by spaces and each word capitalized"
(underscores/hyphens replaced with spaces, title-cased). -/
def displayName (slug : String) : String :=
  pyTitle ⟨slug.data.map (fun c => if isSeparator c then ' ' else c)⟩

/-- Modelled from the spec: the `subete` method `Project.requirements_url()`,
which is not under `src/` — "a requirements/description URL (always
present)", a fixed per-program URL keyed by the project identifier. -/
def requirements_url (slug : String) : String :=
  "https://sampleprograms.io/projects/" ++ slug ++ "/"

/-- Modelled from the spec: the `subete` method
`SampleProgram.article_issue_query_url()`, which is not under `src/` —
"an issue-search-query URL constructed from a fixed template with the
display title of the program and the language name substituted
(percent-encoded), plus a lowercase, plus-joined label derived from the
title". -/
def article_issue_query_url (title language : String) : String :=
  "https://github.com/TheRenegadeCoder/sample-programs/issues?q=is%3Aissue+label%3A"
    ++ pyLower (plusJoin (pySplit title))
    ++ "+" ++ pyQuote title ++ "+" ++ pyQuote language

/-- One implemented program of a language, as exposed by `subete`:
its identifier slug, whether a documentation page exists, and the
documentation URL (valid only if it exists). -/
structure SampleProgram where
  slug : String
  hasDocs : Bool
  docUrl : String
deriving DecidableEq, Repr

/-- Test configuration record, as exposed by the `subete` method `testinfo()`:
container image and tag. -/
structure TestInfo where
  image : String
  tag : String
deriving DecidableEq, Repr

/-- A language collection, as exposed by `subete`: display name,
path-safe name, optional docs URL, the implemented programs, and the
missing program identifiers (approved set minus implemented set). -/
structure Language where
  name : String
  pathlikeName : String
  hasDocs : Bool
  langDocsUrl : String
  programs : List SampleProgram
  missingPrograms : List String
  testinfo : Option TestInfo
deriving DecidableEq, Repr

/-- Modelled from the spec: the `subete` method
`LanguageCollection.total_programs()` — the number of implemented
programs of the language. -/
def Language.total_programs (language : Language) : Nat :=
  language.programs.length

/-- Modelled from the spec: the `subete` method
`LanguageCollection.missing_programs_count()` — the number of missing
programs of the language. -/
def Language.missing_programs_count (language : Language) : Nat :=
  language.missingPrograms.length

/-! ## URL templates (`readme.py`, lines 13–14) -/

def issue_url_template_base : String :=
  "https://github.com/TheRenegadeCoder/sample-programs/issues/new"

/-- Python `issue_url_template_query.format(label=…, project=…,
language=…)`: the fixed template
`"?assignees=&labels=enhancement,{label}&template=code-snippet-request.md&title=Add+{project}+in+{language}"`
with its three named fields substituted. Since each field occurs exactly
once and the template holds no other braces, `str.format` is exactly
this concatenation of the literal segments. -/
def issue_url_template_query_format (label project language : String) : String :=
  "?assignees=&labels=enhancement," ++ label
    ++ "&template=code-snippet-request.md&title=Add+" ++ project
    ++ "+in+" ++ language

/-! ## `_generate_program_list_header` (`readme.py`, lines 127–137) -/

/-- The bucket index `int((program_count / total_program_count) * 4)`
computed by `_generate_program_list_header`, in exact arithmetic
(`total_program_count ≠ 0`; both counts are non-negative, so the
truncation in Python is the floor). -/
def bucketOf (program_count total_program_count : Nat) : Nat :=
  program_count * 4 / total_program_count

/-- The fixed five-element indicator list `emojis` of
`_generate_program_list_header`. -/
def emojis : List String :=
  [":disappointed:", ":thinking:", ":relaxed:", ":smile:", ":partying_face:"]

/-- The function `_generate_program_list_header(program_count, total_program_count)`.
`none` models a raised exception: `ZeroDivisionError` when
`total_program_count == 0`, `IndexError` when the bucket index falls
outside `emojis`. -/
def generate_program_list_header (program_count total_program_count : Nat) :
    Option String :=
  if total_program_count = 0 then none
  else
    (emojis[bucketOf program_count total_program_count]?).map fun e =>
      "Sample Programs List - " ++ toString program_count ++ "/"
        ++ toString total_program_count ++ " " ++ e

/-! ## Markdown line items

A read-me line item, as rendered by `snakemd`: an icon, the program name
turned into a link by `insert_link(program_name, url)`, and the fixed
"Requirements" text turned into a link by
`insert_link("Requirements", requirements_url)`. -/

structure LineItem where
  icon : String
  nameText : String
  nameUrl : String
  reqText : String
  reqUrl : String
deriving DecidableEq, Repr

/-! ## `_generate_program_list` (`readme.py`, lines 70–87) -/

/-- The body of the loop of `_generate_program_list` for one `program`: the
line is first built optimistically (`:white_check_mark:` icon, name
linked to `program.documentation_url()`), then — when
`not program.has_docs()` — patched by
`replace(":white_check_mark:", ":warning:")` and
`replace_link(program.documentation_url(), program.article_issue_query_url())`. -/
def generate_program_line (language : Language) (program : SampleProgram) :
    LineItem :=
  let program_name := displayName program.slug
  let program_line : LineItem :=
    { icon := ":white_check_mark:"
      nameText := program_name
      nameUrl := program.docUrl
      reqText := "Requirements"
      reqUrl := requirements_url program.slug }
  if !program.hasDocs then
    { program_line with
      icon := ":warning:"
      nameUrl := article_issue_query_url program_name language.name }
  else program_line

/-- The function `_generate_program_list(language)`: one line item per implemented
program, in the order of the language collection. -/
def generate_program_list (language : Language) : List LineItem :=
  language.programs.map (generate_program_line language)

/-! ## `_generate_missing_program_list` (`readme.py`, lines 90–113) -/

/-- Lexicographic comparison of character lists by code point, the
order Python uses on strings. -/
def charListLe : List Char → List Char → Bool
  | [], _ => true
  | _ :: _, [] => false
  | a :: as, b :: bs =>
    if a < b then true
    else if b < a then false
    else charListLe as bs

/-- Python `<=` on strings: lexicographic by code point. -/
def pyStrLe (a b : String) : Bool :=
  charListLe a.data b.data

/-- The key comparison underlying
`missing_programs.sort(key=lambda x: x.name())`. -/
def missingLe (a b : String) : Bool :=
  pyStrLe (displayName a) (displayName b)

/-- The issue-creation URL built in the loop of
`_generate_missing_program_list`:
`issue_url_template_base + issue_url_template_query.format(label=program_query.lower(), project=program_query, language=urllib.parse.quote(language.name()))`
where `program_query = "+".join(program_name.split())`. -/
def missing_program_url (language : Language) (program : String) : String :=
  let program_name := displayName program
  let program_query := plusJoin (pySplit program_name)
  issue_url_template_base
    ++ issue_url_template_query_format (pyLower program_query) program_query
        (pyQuote language.name)

/-- The line item built in the loop of `_generate_missing_program_list`:
`:x:` icon, name linked to the issue-creation URL, and the
"Requirements" link. -/
def missing_program_item (language : Language) (program : String) : LineItem :=
  { icon := ":x:"
    nameText := displayName program
    nameUrl := missing_program_url language program
    reqText := "Requirements"
    reqUrl := requirements_url program }

/-- The function `_generate_missing_program_list(language, missing_programs)`. The
Python function first sorts `missing_programs` **in place**
(`missing_programs.sort(key=lambda x: x.name())`) and then maps over the
sorted list; the mutation is made explicit by returning, next to the
result list, the post-call value of the `missing_programs` list of the
caller
argument. -/
def generate_missing_program_list (language : Language)
    (missing_programs : List String) : List LineItem × List String :=
  let sorted := missing_programs.mergeSort missingLe
  (sorted.map (missing_program_item language), sorted)

/-! ## Document model

`snakemd` (the external document builder) is modelled from the spec: a
document is an ordered sequence of abstract block elements (heading,
paragraph with inline links, unordered list of styled lines, fenced code
block, horizontal rule). Paragraphs are embedded as their rendered text,
with an inline link rendered `[text](url)`; `insert_link` with a target
that does not occur in the paragraph leaves the paragraph unchanged. -/

inductive Block where
  | heading (level : Nat) (text : String)
  | para (text : String)
  | mdlist (items : List LineItem)
  | ulist (items : List String)
  | codeBlock (lang : String) (body : String)
  | hrule
deriving DecidableEq, Repr

/-! ## `_get_intro_text` (`readme.py`, lines 55–67) -/

/-- The function `_get_intro_text(language)`: the welcome sentence, followed — only
when the language has docs — by the documentation sentence whose final
word `here.` is an inline link to `language.lang_docs_url()`. -/
def get_intro_text (language : Language) : String :=
  "Welcome to Sample Programs in " ++ language.name ++ "! "
    ++ (if language.hasDocs then
          "To find documentation related to the " ++ language.name
            ++ " code in this repo, look [here.](" ++ language.langDocsUrl ++ ")"
        else "")

/-! ## `_generate_credit` (`readme.py`, lines 116–124) -/

/-- The function `_generate_credit()`: the fixed closing paragraph (built from a
triple-quoted string that is not stripped, hence the embedded newlines
and indentation), with `this project` linked to the generating tool. -/
def generate_credit : String :=
  "\n        This page was generated automatically by the Sample Programs READMEs tool. \n        Find out how to support [this project](https://github.com/TheRenegadeCoder/sample-programs-readmes) on Github.\n        "

/-! ## `ReadMeCatalog._build_readme` (`readme.py`, lines 154–231)

The stripped triple-quoted paragraph texts keep their interior newlines
and indentation (12 spaces at method level, 16 inside an `if` branch),
and the trailing spaces of their interior lines, exactly as in the
source. -/

/-- The paragraph following the program-list header. -/
def sample_programs_section_text (name : String) : String :=
  "In this section, we feature a list of completed and missing programs in "
    ++ name ++ ". See above for the\n            current amount of completed programs in "
    ++ name ++ ". If you see a program that is missing and would like to \n            add it, please submit an issue, so we can assign it to you."

/-- The paragraph under `Completed Programs`. The subsequent
`insert_link("Sample Programs project list", …)` call targets text that
does not occur in the paragraph (the paragraph says
`Sample Programs projects list`), so the paragraph is unchanged. -/
def completed_programs_text (name : String) : String :=
  "Below, you\x27ll find a list of completed code snippets in "
    ++ name ++ ". Code snippets preceded by :warning: \n            link to a GitHub issue query featuring a possible article request issue. If an article request issue \n            doesn\x27t exist, we encourage you to create one. Meanwhile, code snippets preceded by :white_check_mark: \n            link to an existing article which provides further documentation. To see the list of approved projects, \n            check out the official Sample Programs projects list."

/-- The paragraph under `Missing Programs`. -/
def missing_programs_text (name : String) : String :=
  "The following list contains all of the approved programs that are not currently implemented in "
    ++ name ++ ".\n                Click on the name of the project to easily open an issue in GitHub. Alternatively, click requirements\n                to check out the description of the project."

/-- The paragraph shown when the language has no test configuration
(not stripped, hence the leading and trailing whitespace). -/
def no_testing_text : String :=
  "\n                This language currently does not feature testing. If you\x27d like to help in the efforts to test all of \n                the code in this repo, consider creating a testinfo.yml file with the following information:\n                "

/-- The fenced `yml` template emitted when the language has no test
configuration. -/
def testinfo_template : String :=
  "folder:\n  extension:\n  naming:\n\ncontainer:\n  image:\n  tag:\n  cmd:"

/-- The paragraph shown when the language has a test configuration. -/
def testing_list_text (name : String) : String :=
  "The following list shares details about what we\x27re using to test all Sample Programs in "
    ++ name ++ "."

/-- The closing testing paragraph, with `Glotter2 project` linked. -/
def glotter_text : String :=
  "See the [Glotter2 project](https://github.com/rzuckerm/glotter2) for more information on how to create a testinfo file."

/-- The block sequence `_build_readme` assembles once the program-list
header has been computed. -/
def readme_blocks (language : Language) (header : String) : List Block :=
  [Block.heading 1 ("Sample Programs in " ++ language.name),
   Block.para (get_intro_text language),
   Block.heading 2 header,
   Block.para (sample_programs_section_text language.name),
   Block.heading 3 "Completed Programs",
   Block.para (completed_programs_text language.name),
   Block.mdlist (generate_program_list language)]
  ++ (if language.missing_programs_count > 0 then
        [Block.heading 3 "Missing Programs",
         Block.para (missing_programs_text language.name),
         Block.mdlist (generate_missing_program_list language language.missingPrograms).1]
      else [])
  ++ [Block.heading 2 "Testing"]
  ++ (match language.testinfo with
      | none =>
        [Block.para no_testing_text,
         Block.codeBlock ("yml") testinfo_template]
      | some test_data =>
        [Block.para (testing_list_text language.name),
         Block.ulist ["Docker Image: " ++ test_data.image,
                      "Docker Tag: " ++ test_data.tag]])
  ++ [Block.para glotter_text, Block.hrule, Block.para generate_credit]

/-- The method `ReadMeCatalog._build_readme(language)` for a repository whose
`total_approved_projects()` is `total_approved`. `none` models the
exception raised inside `_generate_program_list_header` (in which case
no page is stored for the language). -/
def build_readme (total_approved : Nat) (language : Language) :
    Option (List Block) :=
  (generate_program_list_header language.total_programs total_approved).map
    (readme_blocks language)

/-! ## `ReadMeCatalog._build_readmes` and the run model -/

/-- The repository model handed to `ReadMeCatalog`: the language
collections in iteration order and `total_approved_projects()`. -/
structure Repo where
  languages : List Language
  total_approved_projects : Nat
deriving DecidableEq, Repr

/-- The method `ReadMeCatalog._build_readmes()`: one page per language, keyed by
`language.pathlike_name()`, in iteration order (the insertion order of
the `pages` dict). `none` models an exception aborting the run. -/
def build_readmes (repo : Repo) : Option (List (String × List Block)) :=
  repo.languages.mapM fun language =>
    (build_readme repo.total_approved_projects language).map
      fun page => (language.pathlikeName, page)

/-- The run-dependent process environment a generator run could in
principle observe: wall-clock time and a randomness seed. `readme.py`
imports no clock and no randomness source, so the pipeline below does
not consult it. -/
structure Env where
  time : Nat
  randomSeed : Nat
deriving DecidableEq, Repr

/-- A full generator run in environment `env`: building every page from
the repository model. The body is exactly `build_readmes repo` — the
source has no way to read `env`. -/
def run_generator (_env : Env) (repo : Repo) :
    Option (List (String × List Block)) :=
  build_readmes repo

/-! ## Shared concrete sample data, used by witnesses and counterexamples -/

/-- A concrete language collection: two implemented programs (one with a
documentation page, one without) and one missing program. -/
def sampleLanguage : Language :=
  { name := "Python"
    pathlikeName := "python"
    hasDocs := true
    langDocsUrl := "https://sampleprograms.io/languages/python/"
    programs :=
      [{ slug := "hello-world", hasDocs := true, docUrl := "https://sampleprograms.io/projects/hello-world/python/" },
       { slug := "rot13", hasDocs := false, docUrl := "https://sampleprograms.io/projects/rot13/python/" }]
    missingPrograms := ["binary-search"]
    testinfo := some { image := "python", tag := "3.8-alpine" } }

/-- A concrete fully-complete language collection: one implemented
program, no missing programs, no test configuration. -/
def sampleCompleteLanguage : Language :=
  { name := "C"
    pathlikeName := "c"
    hasDocs := false
    langDocsUrl := ""
    programs :=
      [{ slug := "hello-world", hasDocs := false, docUrl := "https://sampleprograms.io/projects/hello-world/c/" }]
    missingPrograms := []
    testinfo := none }

/-! ## Bucket lemmas -/

/-- With `c ≤ t` and `t > 0` the raw bucket index is already at most 4. -/
lemma bucketOf_le_four {c t : Nat} (hc : c ≤ t) (ht : 0 < t) :
    bucketOf c t ≤ 4 := by
  unfold bucketOf
  calc c * 4 / t ≤ t * 4 / t := Nat.div_le_div_right (Nat.mul_le_mul_right 4 hc)
    _ = 4 := Nat.mul_div_cancel_left 4 ht

/-- C1: for every completed count `c` and total approved count `t` with
`0 ≤ c ≤ t` and `t > 0`, the status bucket computed by
`_generate_program_list_header` equals `⌊(c / t) · 4⌋` clamped to
`[0, 4]` (the clamp is a no-op); `c = t` yields bucket 4 and `c = 0`
yields bucket 0; the emoji index is always a valid index into the fixed
five-element indicator list, so the header is produced without an
`IndexError`. -/
theorem C1_header_bucket_valid (c t : Nat) (hc : c ≤ t) (ht : 0 < t) :
    bucketOf c t = min (c * 4 / t) 4
      ∧ (c = t → bucketOf c t = 4)
      ∧ (c = 0 → bucketOf c t = 0)
      ∧ bucketOf c t < emojis.length
      ∧ (generate_program_list_header c t).isSome = true := by
  have h4 : bucketOf c t ≤ 4 := bucketOf_le_four hc ht
  have hlen : bucketOf c t < emojis.length := by
    simpa [emojis] using Nat.lt_succ_of_le h4
  refine ⟨(min_eq_left h4).symm, ?_, ?_, hlen, ?_⟩
  · rintro rfl
    exact Nat.mul_div_cancel_left 4 ht
  · rintro rfl
    simp [bucketOf]
  · rw [generate_program_list_header, if_neg (Nat.pos_iff_ne_zero.mp ht)]
    simp [List.getElem?_eq_getElem hlen]

/-- Witness for C1 at `c = 2`, `t = 3`. -/
theorem C1_header_bucket_valid_witness :
    bucketOf 2 3 = min (2 * 4 / 3) 4
      ∧ ((2 : Nat) = 3 → bucketOf 2 3 = 4)
      ∧ ((2 : Nat) = 0 → bucketOf 2 3 = 0)
      ∧ bucketOf 2 3 < emojis.length
      ∧ (generate_program_list_header 2 3).isSome = true :=
  C1_header_bucket_valid 2 3 (by decide) (by decide)

/-- C2 (refuted, documenting the code bug): with a total approved count
of 0, `_generate_program_list_header` does not default the ratio to 0
and return a heading — the division `program_count / total_program_count`
raises a `ZeroDivisionError` (embedded as `none`), and `_build_readme`
produces no page for the language. -/
theorem C2_zero_total_raises :
    generate_program_list_header 0 0 = none
      ∧ (∀ c : Nat, generate_program_list_header c 0 = none)
      ∧ build_readme 0 sampleLanguage = none := by
  refine ⟨rfl, fun c => ?_, rfl⟩
  simp [generate_program_list_header]

/-- C3: the status bucket is monotonically non-decreasing in the
completed count: for a fixed total `t > 0` and `c1 ≤ c2 ≤ t`, the bucket
for `c1` is at most the bucket for `c2`. -/
theorem C3_bucket_monotone (c1 c2 t : Nat) (h12 : c1 ≤ c2) (_hc2 : c2 ≤ t)
    (_ht : 0 < t) : bucketOf c1 t ≤ bucketOf c2 t :=
  Nat.div_le_div_right (Nat.mul_le_mul_right 4 h12)

/-- Witness for C3 at `c1 = 1`, `c2 = 2`, `t = 3`. -/
theorem C3_bucket_monotone_witness : bucketOf 1 3 ≤ bucketOf 2 3 :=
  C3_bucket_monotone 1 2 3 (by decide) (by decide) (by decide)

/-! ## Sorting lemmas for the missing-program list -/

/-- Characters incomparable under `<` are equal. -/
lemma char_eq_of_not_lt {a b : Char} (h1 : ¬ a < b) (h2 : ¬ b < a) :
    a = b := by
  rcases lt_trichotomy a b with h | h | h
  · exact absurd h h1
  · exact h
  · exact absurd h h2

/-- Lexicographic comparison of character lists is total. -/
lemma charListLe_total : ∀ (as bs : List Char),
    (charListLe as bs || charListLe bs as) = true
  | [], bs => by simp [charListLe]
  | a :: as, [] => by simp [charListLe]
  | a :: as, b :: bs => by
    by_cases h1 : a < b
    · simp [charListLe, h1]
    · by_cases h2 : b < a
      · simp [charListLe, h1, h2]
      · simpa [charListLe, h1, h2] using charListLe_total as bs

/-- Lexicographic comparison of character lists is transitive. -/
lemma charListLe_trans : ∀ {as bs cs : List Char},
    charListLe as bs = true → charListLe bs cs = true →
      charListLe as cs = true
  | [], _, cs, _, _ => by simp [charListLe]
  | a :: as, [], _, h1, _ => by simp [charListLe] at h1
  | a :: as, b :: bs, [], _, h2 => by simp [charListLe] at h2
  | a :: as, b :: bs, c :: cs, h1, h2 => by
    by_cases hab : a < b
    · by_cases hbc : b < c
      · simp [charListLe, lt_trans hab hbc]
      · by_cases hcb : c < b
        · simp [charListLe, hbc, hcb] at h2
        · have hbc2 : b = c := char_eq_of_not_lt hbc hcb
          simp [charListLe, hbc2 ▸ hab]
    · by_cases hba : b < a
      · simp [charListLe, hab, hba] at h1
      · have hab2 : a = b := char_eq_of_not_lt hab hba
        subst hab2
        by_cases hac : a < c
        · simp [charListLe, hac]
        · by_cases hca : c < a
          · simp [charListLe, hac, hca] at h2
          · have h1r : charListLe as bs = true := by
              simpa [charListLe, hab, hba] using h1
            have h2r : charListLe bs cs = true := by
              simpa [charListLe, hac, hca] using h2
            simpa [charListLe, hac, hca] using charListLe_trans h1r h2r

/-- The display-name key comparison is transitive. -/
lemma missingLe_trans : ∀ (a b c : String),
    missingLe a b → missingLe b c → missingLe a c := by
  intro a b c hab hbc
  simp only [missingLe, pyStrLe] at hab hbc ⊢
  exact charListLe_trans hab hbc

/-- The display-name key comparison is total. -/
lemma missingLe_total : ∀ (a b : String), missingLe a b || missingLe b a := by
  intro a b
  simp only [missingLe, pyStrLe]
  exact charListLe_total (displayName a).data (displayName b).data

/-- The sorted slug list underlying the missing-program list is ordered
by display name. -/
lemma mergeSort_missingLe_sorted (l : List String) :
    ((l.mergeSort missingLe).map displayName).Pairwise
      (fun a b => pyStrLe a b = true) := by
  have hp : (l.mergeSort missingLe).Pairwise (fun a b => missingLe a b) :=
    List.sorted_mergeSort missingLe_trans missingLe_total l
  rw [List.pairwise_map]
  exact hp.imp (fun h => by simpa [missingLe] using h)

/-- The function `requirements_url` is injective in the slug. -/
lemma requirements_url_injective : Function.Injective requirements_url := by
  intro a b h
  have hd : ("https://sampleprograms.io/projects/").data ++ (a.data ++ ("/").data)
      = ("https://sampleprograms.io/projects/").data ++ (b.data ++ ("/").data) := by
    simpa [requirements_url, String.data_append, List.append_assoc]
      using congrArg String.data h
  have h2 := List.append_cancel_left hd
  have h3 := List.append_cancel_right h2
  cases a; cases b
  exact congrArg String.mk h3

/-- Missing-program line items determine their slug (through the
requirements link), so building them is injective. -/
lemma missing_program_item_injective (language : Language) :
    Function.Injective (missing_program_item language) := by
  intro a b h
  exact requirements_url_injective
    (congrArg LineItem.reqUrl h :
      requirements_url a = requirements_url b)

/-- C4: the missing-program list emitted in the report is sorted
lexicographically by normalized display name and — the missing set being
duplicate-free — contains no duplicate entries. -/
theorem C4_missing_list_sorted_nodup (language : Language)
    (missing_programs : List String) (hnd : missing_programs.Nodup) :
    (((generate_missing_program_list language missing_programs).1.map
        LineItem.nameText).Pairwise (fun a b => pyStrLe a b = true))
      ∧ ((generate_missing_program_list language missing_programs).1).Nodup := by
  constructor
  · have hs := mergeSort_missingLe_sorted missing_programs
    simpa [generate_missing_program_list, List.map_map, Function.comp,
      missing_program_item] using hs
  · have hperm : (missing_programs.mergeSort missingLe).Perm missing_programs :=
      List.mergeSort_perm missing_programs missingLe
    have hnd2 : (missing_programs.mergeSort missingLe).Nodup :=
      hperm.nodup_iff.mpr hnd
    simpa [generate_missing_program_list]
      using List.Nodup.map (missing_program_item_injective language) hnd2

/-- Witness for C4 on a concrete two-element missing set. -/
theorem C4_missing_list_sorted_nodup_witness :
    (((generate_missing_program_list sampleLanguage
        ["rot13", "binary-search"]).1.map LineItem.nameText).Pairwise
        (fun a b => pyStrLe a b = true))
      ∧ ((generate_missing_program_list sampleLanguage
          ["rot13", "binary-search"]).1).Nodup :=
  C4_missing_list_sorted_nodup sampleLanguage ["rot13", "binary-search"]
    (by decide)

/-- C5: a completed program with a documentation page gets the
`:white_check_mark:` (verified) icon and its name links to the
documentation URL; one without gets the `:warning:` icon and its name
links to the issue-search-query URL built from the display title and
language name; in both cases the line carries the fixed per-program
requirements link. -/
theorem C5_completed_line_shape (language : Language)
    (program : SampleProgram) :
    (generate_program_line language program).icon
        = (if program.hasDocs then ":white_check_mark:" else ":warning:")
      ∧ (generate_program_line language program).nameUrl
        = (if program.hasDocs then program.docUrl
            else article_issue_query_url (displayName program.slug)
              language.name)
      ∧ (generate_program_line language program).nameText
        = displayName program.slug
      ∧ (generate_program_line language program).reqText = "Requirements"
      ∧ (generate_program_line language program).reqUrl
        = requirements_url program.slug := by
  cases hd : program.hasDocs <;> simp [generate_program_line, hd]

/-! ## URL-character safety of percent-encoding -/

/-- A character that may appear verbatim in a well-formed URL query as
built here: an unreserved character, the slash kept safe, or the `%` of
a percent-escape (whose hex digits are alphanumeric and therefore
already unreserved). -/
def isUrlSafeChar (c : Char) : Bool :=
  quoteSafe c || c = '%'

/-- Every Unicode scalar value is below `0x110000`. -/
lemma char_toNat_lt (c : Char) : c.toNat < 0x110000 := by
  rcases c.valid with h | ⟨_, h⟩
  · exact lt_trans h (by norm_num)
  · exact h

/-- Hexadecimal digits are URL-safe. -/
lemma hexDigit_safe : ∀ n < 16, quoteSafe (hexDigit n) = true := by decide

/-- Every character of a `%XX` escape of a byte is URL-safe. -/
lemma percentByte_safe (b : Nat) (hb : b < 256) :
    ∀ c ∈ percentByte b, isUrlSafeChar c = true := by
  intro c hc
  simp only [percentByte, List.mem_cons, List.not_mem_nil, or_false] at hc
  rcases hc with rfl | rfl | rfl
  · rfl
  · simp [isUrlSafeChar, hexDigit_safe (b / 16) (by omega)]
  · simp [isUrlSafeChar, hexDigit_safe (b % 16) (by omega)]

/-- The UTF-8 encoding of a character consists of bytes. -/
lemma utf8Bytes_lt (c : Char) : ∀ b ∈ utf8Bytes c, b < 256 := by
  intro b hb
  have hc := char_toNat_lt c
  unfold utf8Bytes at hb
  split_ifs at hb <;>
    simp only [List.mem_cons, List.not_mem_nil, or_false] at hb <;>
    omega

/-- Percent-encoding one character yields only URL-safe characters. -/
lemma quoteChar_safe (c : Char) : ∀ x ∈ quoteChar c, isUrlSafeChar x = true := by
  intro x hx
  unfold quoteChar at hx
  by_cases h : quoteSafe c
  · rw [if_pos h] at hx
    simp only [List.mem_cons, List.not_mem_nil, or_false] at hx
    subst hx
    simp [isUrlSafeChar, h]
  · rw [if_neg h] at hx
    simp only [List.mem_flatMap] at hx
    obtain ⟨b, hb, hxb⟩ := hx
    exact percentByte_safe b (utf8Bytes_lt c b hb) x hxb

/-- Percent-encoding any string yields only URL-safe characters. -/
lemma pyQuote_all_safe (s : String) :
    (pyQuote s).data.all isUrlSafeChar = true := by
  apply List.all_eq_true.mpr
  intro x hx
  have hx2 : x ∈ s.data.flatMap quoteChar := hx
  simp only [List.mem_flatMap] at hx2
  obtain ⟨c, _, hxc⟩ := hx2
  exact quoteChar_safe c x hxc

/-- C6: the issue-creation URL for a missing program is built
deterministically from the fixed template, substituting the plus-joined
display title as `project`, its lowercasing as `label`, and the
percent-encoded language name as `language`; the percent-encoded
language name consists only of URL-safe characters (so names such as
`C++` or `C#` produce a valid URL — their encodings are computed
explicitly). -/
theorem C6_missing_issue_url_template (language : Language)
    (program : String) :
    missing_program_url language program
        = issue_url_template_base
          ++ ("?assignees=&labels=enhancement,"
              ++ pyLower (plusJoin (pySplit (displayName program)))
              ++ "&template=code-snippet-request.md&title=Add+"
              ++ plusJoin (pySplit (displayName program))
              ++ "+in+" ++ pyQuote language.name)
      ∧ (pyQuote language.name).data.all isUrlSafeChar = true
      ∧ pyQuote ("C++") = "C%2B%2B" ∧ pyQuote ("C#") = "C%23" :=
  ⟨rfl, pyQuote_all_safe language.name, by decide, by decide⟩

/-- C7: a generated page contains the `Missing Programs` heading if and
only if the missing-program count of the language is positive; when it
is positive the section paragraph and list are present as well, and for
a fully-complete language the heading is absent. -/
theorem C7_missing_section_iff (total_approved : Nat) (language : Language)
    (doc : List Block)
    (h : build_readme total_approved language = some doc) :
    ((Block.heading 3 "Missing Programs") ∈ doc
        ↔ 0 < language.missing_programs_count)
      ∧ (0 < language.missing_programs_count →
          Block.para (missing_programs_text language.name) ∈ doc
            ∧ Block.mdlist
                ((generate_missing_program_list language
                  language.missingPrograms).1) ∈ doc) := by
  obtain ⟨header, hhdr, rfl⟩ :
      ∃ header,
        generate_program_list_header language.total_programs total_approved
            = some header
          ∧ doc = readme_blocks language header := by
    unfold build_readme at h
    cases hgen : generate_program_list_header language.total_programs
        total_approved with
    | none => rw [hgen] at h; cases h
    | some header =>
      rw [hgen] at h
      exact ⟨header, rfl, (Option.some_inj.mp h).symm⟩
  have hne : ("Completed Programs" : String) ≠ "Missing Programs" := by decide
  rcases Nat.eq_zero_or_pos language.missing_programs_count with hz | hp
  · cases htest : language.testinfo <;>
      simp [readme_blocks, hz, htest, hne]
  · cases htest : language.testinfo <;>
      simp [readme_blocks, hp, htest, hne]

/-- Witness for C7 on a concrete fully-complete language. -/
theorem C7_missing_section_iff_witness :
    ((Block.heading 3 "Missing Programs")
          ∈ (build_readme 1 sampleCompleteLanguage).getD []
        ↔ 0 < sampleCompleteLanguage.missing_programs_count)
      ∧ (0 < sampleCompleteLanguage.missing_programs_count →
          Block.para (missing_programs_text sampleCompleteLanguage.name)
              ∈ (build_readme 1 sampleCompleteLanguage).getD []
            ∧ Block.mdlist
                ((generate_missing_program_list sampleCompleteLanguage
                  sampleCompleteLanguage.missingPrograms).1)
              ∈ (build_readme 1 sampleCompleteLanguage).getD []) :=
  C7_missing_section_iff 1 sampleCompleteLanguage
    ((build_readme 1 sampleCompleteLanguage).getD []) rfl

/-- C8: report generation is deterministic — the pipeline is a pure
function of the repository model, so two runs in arbitrary (and possibly
different) process environments produce identical pages: no timestamp,
randomness or other run-dependent data enters the output. -/
theorem C8_run_deterministic :
    ∀ (env1 env2 : Env) (repo : Repo),
      run_generator env1 repo = run_generator env2 repo :=
  fun _ _ _ => rfl

set_option maxRecDepth 10000 in
/-- C9 (counterexample): issue-URL building is **not** injective on raw
program identifiers within one language — the distinct identifiers
`hello-world` and `hello_world` normalize to the same display title and
produce the same issue-creation URL. -/
theorem C9_distinct_slugs_same_url :
    ("hello-world" : String) ≠ "hello_world"
      ∧ missing_program_url sampleLanguage ("hello-world")
          = missing_program_url sampleLanguage ("hello_world") :=
  ⟨by decide, by decide⟩

/-- The issue-creation URL determines the query token: with the same
language, equal URLs force equal plus-joined tokens. -/
lemma template_token_injective (L : String) {q1 q2 : String}
    (he : issue_url_template_base
            ++ issue_url_template_query_format (pyLower q1) q1 L
        = issue_url_template_base
            ++ issue_url_template_query_format (pyLower q2) q2 L) :
    q1 = q2 := by
  have hd := congrArg String.data he
  simp only [issue_url_template_query_format, String.data_append,
    List.append_assoc] at hd
  have h1 := List.append_cancel_left (List.append_cancel_left hd)
  have hlow1 : (pyLower q1).data.length = q1.data.length := by
    simp [pyLower]
  have hlow2 : (pyLower q2).data.length = q2.data.length := by
    simp [pyLower]
  have hlen := congrArg List.length h1
  simp only [List.length_append, hlow1, hlow2] at hlen
  have hq : q1.data.length = q2.data.length := by omega
  obtain ⟨-, h2⟩ := List.append_inj h1 (by rw [hlow1, hlow2, hq])
  have h3 := List.append_cancel_left h2
  obtain ⟨h4, -⟩ := List.append_inj h3 hq
  cases q1; cases q2
  exact congrArg String.mk h4

/-- C9 (amended): within a single language, issue-URL building is
injective on the normalized plus-joined query token — two missing
programs whose display-title tokens differ produce distinct
issue-creation URLs. -/
theorem C9_amended_token_injective (language : Language) (p1 p2 : String)
    (h : plusJoin (pySplit (displayName p1))
        ≠ plusJoin (pySplit (displayName p2))) :
    missing_program_url language p1 ≠ missing_program_url language p2 := by
  intro he
  exact h (template_token_injective (pyQuote language.name)
    (by simpa only [missing_program_url] using he))

/-- Witness for the amended C9 on two programs with distinct tokens. -/
theorem C9_amended_token_injective_witness :
    plusJoin (pySplit (displayName ("hello-world")))
        ≠ plusJoin (pySplit (displayName ("rot13")))
      ∧ missing_program_url sampleLanguage ("hello-world")
          ≠ missing_program_url sampleLanguage ("rot13") :=
  ⟨by decide,
   C9_amended_token_injective sampleLanguage ("hello-world") ("rot13")
     (by decide)⟩

-- Evaluation of the in-place sort on a concrete two-element list.
unseal List.merge List.mergeSort in
lemma mergeSort_sample_pair :
    (["rot13", "binary-search"] : List String).mergeSort missingLe
      = ["binary-search", "rot13"] := rfl

/-- C10: `_generate_missing_program_list` mutates its `missing_programs`
argument — after the call the list of the caller is a permutation of the
original, ordered by display name, and on a concrete unsorted input the
post-call list differs from the original order. -/
theorem C10_sort_mutates_argument :
    (∀ (language : Language) (missing_programs : List String),
        ((generate_missing_program_list language missing_programs).2).Perm
            missing_programs
          ∧ (((generate_missing_program_list language
                missing_programs).2).map displayName).Pairwise
              (fun a b => pyStrLe a b = true))
      ∧ (generate_missing_program_list sampleLanguage
            ["rot13", "binary-search"]).2 = ["binary-search", "rot13"]
      ∧ (["rot13", "binary-search"] : List String)
          ≠ ["binary-search", "rot13"] := by
  refine ⟨fun language missing_programs => ⟨?_, ?_⟩, ?_, by decide⟩
  · simpa [generate_missing_program_list]
      using List.mergeSort_perm missing_programs missingLe
  · simpa [generate_missing_program_list]
      using mergeSort_missingLe_sorted missing_programs
  · simpa [generate_missing_program_list] using mergeSort_sample_pair

end Ronbun
